import Mathlib

/-! Shallow embedding of `src/libs/ocra-yarp/src/OcraControllerServerThread.cpp`
(repository rlober/codyco-isir).  C++ `double`s are modelled as `Rat`; the
external collaborators (whole-body interface, model updater, task parser and
wall clock) are modelled as environment records supplying their observable
results; C++ steps that fault (null-pointer dereferences) are modelled with
`Option`, `none` meaning the source faults there. -/

set_option autoImplicit false

namespace OcraYarp

/-- Modelled from the spec: millisecond-to-second conversion constant used at
line 335 (`time_sim += TIME_MSEC_TO_SEC * getRate()`); the constant lives in a
header that is not under `src/`, and the spec says SimulatedTime advances by
one period "converted to seconds" per step. -/
def TIME_MSEC_TO_SEC : Rat := 1 / 1000

/-- Line 535: `const double STABILIZATION_TIMEOUT = 1.0`. -/
def STABILIZATION_TIMEOUT : Rat := 1

/-- Line 561: `const double ZERO_VELOCITY_THRESHOLD = 0.01`. -/
def ZERO_VELOCITY_THRESHOLD : Rat := 1 / 100

/-- The two controller status values that `controllerStatus` ever takes
(`OCRA_CONTROLLER_MESSAGE::CONTROLLER_STOPPED` at line 60 and
`::CONTROLLER_RUNNING` at line 226); the enum itself lives in a header not
under `src/`. -/
inductive ControllerStatus
  | CONTROLLER_STOPPED
  | CONTROLLER_RUNNING
deriving DecidableEq, Repr

/-- Lines 33-45: `OcraControllerOptions`, the immutable configuration
snapshot. -/
structure OcraControllerOptions where
  threadPeriod : Nat := 10
  serverName : String := ""
  robotName : String := ""
  startupTaskSetPath : String := ""
  startupSequence : String := ""
  wbiConfigFilePath : String := ""
  runInDebugMode : Bool := false
  isFloatingBase : Bool := false
deriving DecidableEq, Repr

/-- The observable state of the external `ocra::TaskSequence` collaborator:
its named task managers (name paired with the manager's current commanded
target, the quantity `setPosture`/`setState` overwrite) plus counters for the
`init` and `update` calls the thread issues to it. -/
structure TaskSeq where
  managers : List (String × List Rat)
  initCount : Nat
  updateCount : Nat
  lastUpdateTime : Option Rat
deriving DecidableEq, Repr

/-- `new ocra::TaskSequence()` (line 166): a fresh, empty sequence. -/
def emptyTaskSeq : TaskSeq :=
  { managers := [], initCount := 0, updateCount := 0, lastUpdateTime := none }

/-- `taskSequence->update(time_sim, *ocraModel, NULL)` (line 274). -/
def seqUpdate (t : Rat) (seq : TaskSeq) : TaskSeq :=
  { seq with updateCount := seq.updateCount + 1, lastUpdateTime := some t }

/-- `taskSequence->init(*ctrl, *ocraModel)` (line 205). -/
def seqInitCall (seq : TaskSeq) : TaskSeq :=
  { seq with initCount := seq.initCount + 1 }

/-- `taskSequence->clearSequence()` (lines 340 and 353): removes every task
manager. -/
def clearSequence (seq : TaskSeq) : TaskSeq :=
  { seq with managers := [] }

/-- `taskParser.addTaskManagersToSequence(...)` appending parsed managers
(lines 171 and 517). -/
def addManagers (ms : List (String × List Rat)) (seq : TaskSeq) : TaskSeq :=
  { seq with managers := seq.managers ++ ms }

/-- Look up the (first) task manager with the given name:
`taskSequence->getTaskManagerPointer(key)` (lines 528-530). -/
def findTarget (key : String) : List (String × List Rat) → Option (List Rat)
  | [] => none
  | (k, v) :: rest => if k = key then some v else findTarget key rest

/-- Overwrite the target of the (first) manager named `key`. -/
def retarget (key : String) (v : List Rat) :
    List (String × List Rat) → List (String × List Rat)
  | [] => []
  | (k, w) :: rest =>
    if k = key then (k, v) :: rest else (k, w) :: retarget key v rest

/-- `getTaskManagerPointer(key)` followed by `setPosture`/`setState`
(lines 528-530).  A name that is not in the sequence yields a null task
manager pointer which the source dereferences unchecked; that fault is
`none`. -/
def setTarget (key : String) (v : List Rat) (seq : TaskSeq) : Option TaskSeq :=
  match findTarget key seq.managers with
  | some _ => some { seq with managers := retarget key v seq.managers }
  | none => none

/-- The thread's mutable state: the members of `OcraControllerServerThread`
that the claims read or write, plus the two port-open flags and a counter of
`stabilizeRobot()` entries (the observable "stabilization ran" events).
Members no claim touches (`homePosture`, `debugPosture`, `measuredTorques`,
`refSpeed`) are omitted. -/
structure ThreadState where
  ctrlOptions : OcraControllerOptions
  dofs : Nat
  fixedRoot : Bool
  isStabilizing : Bool
  controllerStatus : ControllerStatus
  taskSequence : Option TaskSeq
  time_sim : Rat
  torques : List Rat
  minTorques : List Rat
  maxTorques : List Rat
  initialPosture : List Rat
  initialCoMPosition : List Rat
  initialTorsoPosition : List Rat
  jointVelocities : List Rat
  debugJointIndex : Nat
  rpcPortOpen : Bool
  debugPortsOpen : Bool
  lastPosCommand : Option (List Rat)
  stabilizeCalls : Nat
deriving DecidableEq, Repr

/-- Lines 56-86: the thread constructor.  `fixedRoot` models
`OcraWbiModel(..., isFloatingBase)` / `hasFixedRoot()`; `torqueMin` and
`torqueMax` stand for the header constants `TORQUE_MIN` / `TORQUE_MAX` used at
lines 78-79 (headers are not under `src/`); all vectors are zero-filled at
DoF length, `time_sim = 0`, `isStabilizing = false`, status `STOPPED`,
`taskSequence = NULL`. -/
def mkThread (opts : OcraControllerOptions) (dofs : Nat)
    (torqueMin torqueMax : Rat) : ThreadState :=
  { ctrlOptions := opts
    dofs := dofs
    fixedRoot := !opts.isFloatingBase
    isStabilizing := false
    controllerStatus := ControllerStatus.CONTROLLER_STOPPED
    taskSequence := none
    time_sim := 0
    torques := List.replicate dofs 0
    minTorques := List.replicate dofs torqueMin
    maxTorques := List.replicate dofs torqueMax
    initialPosture := List.replicate dofs 0
    initialCoMPosition := List.replicate 3 0
    initialTorsoPosition := List.replicate 3 0
    jointVelocities := List.replicate dofs 0
    debugJointIndex := 0
    rpcPortOpen := false
    debugPortsOpen := false
    lastPosCommand := none
    stabilizeCalls := 0 }

/-- What one call of `run()` observes from the collaborators: the model
updater's success flag and the refreshed joint velocities it would write
(lines 243-244), the non-blocking debug-port read (line 253), and the torque
vector produced by `ctrl->computeOutput(torques)` (line 282). -/
structure RunEnv where
  updateOk : Bool
  jointVelocities : List Rat
  debugPortInput : Option Int
  computeOutput : List Rat
deriving DecidableEq, Repr

/-- What `threadInit()` observes from the collaborators: the first-sample
model-updater result (line 116, failure only logged), the joint-position
estimate (line 120), CoM and torso positions (lines 121-122), and the XML
task parser's result together with the managers it adds (lines 169-173). -/
structure InitEnv where
  modelFirstOk : Bool
  jointPosEstimate : List Rat
  comPosition : List Rat
  torsoPosition : List Rat
  xmlParseOk : Bool
  xmlManagers : List (String × List Rat)
deriving DecidableEq, Repr

/-- What `threadRelease()` observes: the result of
`addTaskManagersToSequence` inside `loadStabilizationTasks()` (line 517) and
the stabilization managers it adds, the per-iteration collaborator inputs and
wall-clock samples of the stabilization loop (`yarp::os::Time::now()`,
lines 533 and 542), and the result of the final
`setControlMode(CTRL_MODE_POS, 0, ALL_JOINTS)` (line 350).  `fuel` bounds the
loop recursion; the theorems show any bound beyond the index at which the
clock passes the timeout suffices. -/
structure ReleaseEnv where
  stabLoadOk : Bool
  stabManagers : List (String × List Rat)
  stabRunEnvs : Nat → RunEnv
  clock : Nat → Rat
  startTime : Rat
  fuel : Nat
  setPosModeOk : Bool

/-- Lines 296-301: what `run()` hands to `setControlReference` — the single
tested joint's torque in debug mode, the full vector otherwise. -/
inductive TorqueDispatch
  | singleJoint (j : Nat) (tau : Rat)
  | allJoints (taus : List Rat)
deriving DecidableEq, Repr

/-- Line 289: `torques = ((torques.array().max(minTorques)).min(maxTorques))`,
Eigen's elementwise clamp. -/
def clampVec : List Rat → List Rat → List Rat → List Rat
  | t :: ts, lo :: los, hi :: his => min (max t lo) hi :: clampVec ts los his
  | _, _, _ => []

/-- Squared Euclidean norm of a vector. -/
def normSq (l : List Rat) : Rat := (l.map (fun x => x * x)).sum

/-- Lines 559-563: `isRobotStable()`, i.e.
`getJointVelocities().norm() <= ZERO_VELOCITY_THRESHOLD`; stated on squares,
which is equivalent for the nonnegative norm and keeps the value rational. -/
def isRobotStable (s : ThreadState) : Bool :=
  decide (normSq s.jointVelocities ≤ ZERO_VELOCITY_THRESHOLD ^ 2)

/-- Lines 243-244: `modelUpdater->update(robot, ocraModel)`; on success the
model proxy holds the fresh estimates, on failure (only logged, non-fatal)
the prior snapshot is kept. -/
def modelUpdatePhase (env : RunEnv) (s : ThreadState) : ThreadState :=
  { s with jointVelocities :=
      if env.updateOk then env.jointVelocities else s.jointVelocities }

/-- Lines 253-271: the debug-mode poll of `debugPort_in`.  A received index in
`[0, DoF)` returns the previous joint to position hold and switches the new
joint to torque test mode (external actuation calls); `debugJointIndex` is
assigned unconditionally before the torque-mode call.  Out-of-range input
only logs a warning. -/
def debugPhase (env : RunEnv) (s : ThreadState) : ThreadState :=
  match env.debugPortInput with
  | some k =>
    if 0 ≤ k ∧ k < (s.dofs : Int) then { s with debugJointIndex := k.toNat }
    else s
  | none => s

/-- Lines 251-275: the task-sequence phase of `run()`.  Debug mode polls the
debug port; otherwise, unless `isStabilizing`, the task sequence is advanced
by `taskSequence->update(time_sim, *ocraModel, NULL)` — a dereference that
faults if no sequence was ever constructed. -/
def seqUpdatePhase (env : RunEnv) (s : ThreadState) : Option ThreadState :=
  if s.ctrlOptions.runInDebugMode = true then
    some (debugPhase env s)
  else if s.isStabilizing = false then
    s.taskSequence.map fun seq => { s with taskSequence := some (seqUpdate s.time_sim seq) }
  else
    some s

/-- Lines 296-301: choose the dispatch shape from the mode. -/
def dispatchOf (s : ThreadState) (tau : List Rat) : TorqueDispatch :=
  if s.ctrlOptions.runInDebugMode = true then
    TorqueDispatch.singleJoint s.debugJointIndex (tau.getD s.debugJointIndex 0)
  else
    TorqueDispatch.allJoints tau

/-- Lines 282-335: compute torques (`ctrl->computeOutput`, collaborator value
from the environment), clamp them elementwise, dispatch, and advance
`time_sim` by `TIME_MSEC_TO_SEC * getRate()` where `getRate()` is the
configured period in milliseconds. -/
def finishRun (env : RunEnv) (s : ThreadState) : ThreadState × TorqueDispatch :=
  (({ s with
      torques := clampVec env.computeOutput s.minTorques s.maxTorques,
      time_sim := s.time_sim + TIME_MSEC_TO_SEC * (s.ctrlOptions.threadPeriod : Rat) }),
   dispatchOf s (clampVec env.computeOutput s.minTorques s.maxTorques))

/-- Lines 237-336: one control cycle (`run()`), with the value dispatched to
the actuation interface returned alongside the new state. -/
def run (env : RunEnv) (s : ThreadState) : Option (ThreadState × TorqueDispatch) :=
  (seqUpdatePhase env (modelUpdatePhase env s)).map (finishRun env)

/-- `run()` keeping only the state. -/
def runStep (env : RunEnv) (s : ThreadState) : Option ThreadState :=
  (run env s).map Prod.fst

/-- `N` consecutive control cycles, cycle `k` reading `envs k`. -/
def runN (envs : Nat → RunEnv) : Nat → ThreadState → Option ThreadState
  | 0, s => some s
  | n + 1, s => (runN envs n s).bind (fun s1 => runStep (envs n) s1)

/-- Lines 153-196: the normal-mode task-set loading of `threadInit()`.  An
explicit sequence name only prints (the `LoadSequence` call is commented
out); a nonempty XML path creates an empty sequence first (when no sequence
name was given) and populates it from the parsed file when parsing succeeds;
with neither given, the "default minimal tasks" branch also only prints (its
`LoadSequence` calls are commented out), leaving the sequence unconstructed. -/
def normalModeSeq (env : InitEnv) (s : ThreadState) : Option TaskSeq :=
  if s.ctrlOptions.startupTaskSetPath = "" then
    s.taskSequence
  else if env.xmlParseOk then
    (if s.ctrlOptions.startupSequence = "" then some emptyTaskSeq else s.taskSequence).map
      (addManagers env.xmlManagers)
  else
    if s.ctrlOptions.startupSequence = "" then some emptyTaskSeq else s.taskSequence

/-- The task-sequence loading only ever writes `taskSequence`. -/
def normalModeLoad (env : InitEnv) (s : ThreadState) : ThreadState :=
  { s with taskSequence := normalModeSeq env s }

/-- Lines 200-228: the tail of `threadInit()` — `taskSequence->init` (a null
dereference when no sequence was ever constructed, modelled `none`), the
control-mode switch (external actuation calls whose results the source
ignores), then `controllerStatus = CONTROLLER_RUNNING` and `return true`. -/
def finishInit (s : ThreadState) : Option (Bool × ThreadState) :=
  s.taskSequence.map fun seq =>
    (true, { s with
      taskSequence := some (seqInitCall seq),
      controllerStatus := ControllerStatus.CONTROLLER_RUNNING })

/-- Lines 107-122: open the RPC server port and capture the initial posture,
CoM position and torso position from the freshly sampled model (the
first-sample model-updater failure, line 116, is only logged). -/
def capturePhase (env : InitEnv) (s : ThreadState) : ThreadState :=
  { s with
    rpcPortOpen := true
    initialPosture := env.jointPosEstimate
    initialCoMPosition := env.comPosition
    initialTorsoPosition := env.torsoPosition }

/-- Lines 101-229: `threadInit()`.  It opens the RPC server port first
(line 107), takes the first model sample (failure only logged), captures the
initial posture / CoM / torso references, then branches: debug mode on a
floating base fails immediately (line 147, before any status change or debug
port opening); debug mode on a fixed base opens the debug ports and picks
joint 3; normal mode loads the task set.  Both surviving branches fall
through to `finishInit`. -/
def threadInit (env : InitEnv) (s : ThreadState) : Option (Bool × ThreadState) :=
  if s.ctrlOptions.runInDebugMode = true then
    if s.fixedRoot = true then
      finishInit { capturePhase env s with debugPortsOpen := true, debugJointIndex := 3 }
    else
      some (false, capturePhase env s)
  else
    finishInit (normalModeLoad env (capturePhase env s))

/-- Modelled from the spec: the `yarp::os::RateThread` framework (not under
`src/`) starts the periodic stepping only when `threadInit()` returns true. -/
def startsStepping : Option (Bool × ThreadState) → Bool
  | some (true, _) => true
  | _ => false

/-- Lines 520-531: the entry of `stabilizeRobot()` — set the `isStabilizing`
flag (which suppresses sequence updates in `run()`), then re-target the three
named stabilization tasks to the references captured at `threadInit()` time.
The unchecked casts on absent task names fault (`none`).  `stabilizeCalls`
counts the entries. -/
def stabPrep (s : ThreadState) : Option ThreadState :=
  s.taskSequence.bind fun seq =>
    (setTarget "stabilization_fullPosture" s.initialPosture seq).bind fun seqA =>
      (setTarget "stabilization_comTask" s.initialCoMPosition seqA).bind fun seqB =>
        (setTarget "stabilization_torsoCartesianTask" s.initialTorsoPosition seqB).map fun seqC =>
          { s with
            isStabilizing := true
            stabilizeCalls := s.stabilizeCalls + 1
            taskSequence := some seqC }

/-- Lines 540-551: the do-while stabilization loop.  Iteration `k` calls
`run()` with `envs k`, then compares the elapsed wall time `clock k - t0`
against `STABILIZATION_TIMEOUT`; it exits as soon as the robot is stable or
the timeout has elapsed (the source's
`while(!isRobotStable() && timeStabilizing < STABILIZATION_TIMEOUT)`).
`fuel` makes the recursion structural. -/
def stabLoop (envs : Nat → RunEnv) (clock : Nat → Rat) (t0 : Rat) :
    Nat → Nat → ThreadState → Option ThreadState
  | 0, _, _ => none
  | fuel + 1, k, s =>
    (runStep (envs k) s).bind fun s1 =>
      if isRobotStable s1 = true ∨ STABILIZATION_TIMEOUT ≤ clock k - t0 then
        some s1
      else
        stabLoop envs clock t0 fuel (k + 1) s1

/-- Lines 520-557: `stabilizeRobot()` — flag + re-targeting, then the bounded
loop (start time `env.startTime` is the `Time::now()` of line 533). -/
def stabilizeRobot (env : ReleaseEnv) (s : ThreadState) : Option ThreadState :=
  (stabPrep s).bind (stabLoop env.stabRunEnvs env.clock env.startTime env.fuel 0)

/-- Lines 511-518: `loadStabilizationTasks()` — parse the stabilization task
set (parse result ignored by the source) and add its managers to the
sequence, returning `addTaskManagersToSequence`'s success flag. -/
def loadStabilizationTasks (env : ReleaseEnv) (s : ThreadState) : Bool × ThreadState :=
  (env.stabLoadOk,
   { s with taskSequence := s.taskSequence.map (addManagers env.stabManagers) })

/-- Lines 342-348: the floating-base branch of `threadRelease()` — load the
stabilization task set; on success run `stabilizeRobot()`, on failure only
warn and skip. -/
def afterStabPhase (env : ReleaseEnv) (s : ThreadState) : Option ThreadState :=
  if s.fixedRoot = false then
    if (loadStabilizationTasks env s).1 = true then
      stabilizeRobot env (loadStabilizationTasks env s).2
    else
      some (loadStabilizationTasks env s).2
  else
    some s

/-- Lines 350-359: the final position-mode switch.  On success the initial
posture is commanded, the sequence cleared again and
`controllerStatus = CONTROLLER_STOPPED`; on failure only an error is logged
and the state is left as it was. -/
def posModePhase (env : ReleaseEnv) (s : ThreadState) : Option ThreadState :=
  if env.setPosModeOk = true then
    s.taskSequence.map fun seq2 =>
      { s with
        taskSequence := some (clearSequence seq2),
        lastPosCommand := some s.initialPosture,
        controllerStatus := ControllerStatus.CONTROLLER_STOPPED }
  else
    some s

/-- Lines 338-360: `threadRelease()` — clear the sequence (a null dereference
when no sequence exists), best-effort stabilization for floating bases, then
the position-mode switch. -/
def threadRelease (env : ReleaseEnv) (s : ThreadState) : Option ThreadState :=
  s.taskSequence.bind fun seq =>
    (afterStabPhase env { s with taskSequence := some (clearSequence seq) }).bind
      (posModePhase env)

/-- The integer message tags of `parseIncomingMessage` (lines 362-430); their
numeric values come from the `OCRA_CONTROLLER_MESSAGE` enum in a header not
under `src/`, so the tags are abstract here, with `UNKNOWN` standing for any
value outside the enumerated set (the switch's `default`). -/
inductive MsgTag
  | GET_CONTROLLER_STATUS
  | GET_WBI_CONFIG_FILE_PATH
  | GET_ROBOT_NAME
  | START_CONTROLLER
  | STOP_CONTROLLER
  | PAUSE_CONTROLLER
  | ADD_TASK
  | ADD_TASK_FROM_FILE
  | REMOVE_TASK
  | REMOVE_TASKS
  | GET_TASK_LIST
  | GET_TASK_PORT_LIST
  | HELP
  | UNKNOWN
deriving DecidableEq, Repr

/-- Values appended to the reply bottle: `reply.addInt(controllerStatus)`
carries the numeric status (abstracted as the status itself, the enum's
values being in a header), `reply.addString(...)` a string. -/
inductive ReplyVal
  | statusVal (c : ControllerStatus)
  | strVal (v : String)
deriving DecidableEq, Repr

/-- The reply content a single tag produces (lines 369-427): the status for a
status query, the WBI config path and the robot name for those queries,
nothing (only a log line) for every other tag. -/
def replyOf (s : ThreadState) : MsgTag → List ReplyVal
  | MsgTag.GET_CONTROLLER_STATUS => [ReplyVal.statusVal s.controllerStatus]
  | MsgTag.GET_WBI_CONFIG_FILE_PATH => [ReplyVal.strVal s.ctrlOptions.wbiConfigFilePath]
  | MsgTag.GET_ROBOT_NAME => [ReplyVal.strVal s.ctrlOptions.robotName]
  | _ => []

/-- Lines 364-429: the cursor loop of `parseIncomingMessage` — every case
consumes exactly one token, logs, and at most appends to the reply; no case
writes any thread state. -/
def parseMsgLoop (s : ThreadState) :
    List MsgTag → List ReplyVal → ThreadState × List ReplyVal
  | [], reply => (s, reply)
  | tag :: rest, reply => parseMsgLoop s rest (reply ++ replyOf s tag)

/-- Lines 362-430: `parseIncomingMessage(input, reply)` with an initially
empty reply. -/
def parseIncomingMessage (s : ThreadState) (input : List MsgTag) :
    ThreadState × List ReplyVal :=
  parseMsgLoop s input []

/-- Agreement on the thread-state fields that neither `run()` nor the
stabilization loop ever writes; used to carry frame facts through the
iterated step function. -/
structure CoreAgrees (s s' : ThreadState) : Prop where
  opts : s'.ctrlOptions = s.ctrlOptions
  dofs : s'.dofs = s.dofs
  fixedRoot : s'.fixedRoot = s.fixedRoot
  stab : s'.isStabilizing = s.isStabilizing
  status : s'.controllerStatus = s.controllerStatus
  minT : s'.minTorques = s.minTorques
  maxT : s'.maxTorques = s.maxTorques
  initPos : s'.initialPosture = s.initialPosture
  initCoM : s'.initialCoMPosition = s.initialCoMPosition
  initTorso : s'.initialTorsoPosition = s.initialTorsoPosition
  rpc : s'.rpcPortOpen = s.rpcPortOpen
  dbgPorts : s'.debugPortsOpen = s.debugPortsOpen
  lastPos : s'.lastPosCommand = s.lastPosCommand
  stabCalls : s'.stabilizeCalls = s.stabilizeCalls

/-! Concrete instances, used to exhibit the proved properties on explicit
inputs and to evaluate the embedding at the inputs that decide the disputed
claims. -/

/-- A normal-mode, fixed-base configuration with an explicit XML task-set
path (the only startup path on which `threadInit` reaches `return true`). -/
def wOpts : OcraControllerOptions :=
  { threadPeriod := 10, serverName := "", robotName := "icub",
    startupTaskSetPath := "taskSets/basic.xml", startupSequence := "",
    wbiConfigFilePath := "wbi.ini", runInDebugMode := false, isFloatingBase := false }

/-- A floating-base, normal-mode configuration with no startup task set and
no startup sequence (the spec's default-task-set scenario). -/
def fOpts : OcraControllerOptions :=
  { wOpts with
    isFloatingBase := true
    startupTaskSetPath := "" }

/-- Debug mode requested on a floating base. -/
def dbgFloatOpts : OcraControllerOptions :=
  { wOpts with
    runInDebugMode := true
    isFloatingBase := true
    startupTaskSetPath := "" }

def wInit : InitEnv :=
  { modelFirstOk := true, jointPosEstimate := [0], comPosition := [0, 0, 0],
    torsoPosition := [0, 0, 0], xmlParseOk := true, xmlManagers := [] }

/-- A cycle environment whose controller output exceeds the torque bounds. -/
def wRun : RunEnv :=
  { updateOk := true, jointVelocities := [0], debugPortInput := none,
    computeOutput := [5] }

/-- A cycle environment with zero joint velocities and in-range output. -/
def wRun0 : RunEnv :=
  { updateOk := true, jointVelocities := [0], debugPortInput := none,
    computeOutput := [0] }

def wEnvs : Nat → RunEnv := fun _ => wRun

/-- The state `threadInit wInit (mkThread wOpts 1 (-1) 1)` returns. -/
def c2s1 : ThreadState :=
  { mkThread wOpts 1 (-1) 1 with
    controllerStatus := ControllerStatus.CONTROLLER_RUNNING
    taskSequence := some { emptyTaskSeq with initCount := 1 }
    rpcPortOpen := true }

/-- `c2s1` after one cycle under `wRun`. -/
def c2s1a : ThreadState :=
  { c2s1 with
    taskSequence := some { emptyTaskSeq with initCount := 1, updateCount := 1, lastUpdateTime := some 0 }
    torques := [1]
    time_sim := 1 / 100 }

/-- `c2s1` after two cycles under `wRun`. -/
def c2s2 : ThreadState :=
  { c2s1 with
    taskSequence := some { emptyTaskSeq with initCount := 1, updateCount := 2, lastUpdateTime := some (1 / 100) }
    torques := [1]
    time_sim := 1 / 50 }

/-- A running floating-base thread with a (cleared) task sequence in place. -/
def fState : ThreadState :=
  { mkThread fOpts 1 (-1) 1 with
    taskSequence := some emptyTaskSeq
    controllerStatus := ControllerStatus.CONTROLLER_RUNNING }

/-- A teardown environment: the stabilization task set loads successfully and
contains the three expected task names, the clock is past the timeout at the
first poll, and the final position-mode switch succeeds. -/
def wRelEnv : ReleaseEnv :=
  { stabLoadOk := true,
    stabManagers := [("stabilization_fullPosture", [0]), ("stabilization_comTask", [0, 0, 0]),
                     ("stabilization_torsoCartesianTask", [0, 0, 0])],
    stabRunEnvs := fun _ => wRun0, clock := fun _ => 2, startTime := 0, fuel := 1,
    setPosModeOk := true }

/-- A sequence holding the three stabilization tasks (stale targets) plus an
unrelated task. -/
def stabSeq : TaskSeq :=
  { emptyTaskSeq with managers :=
      [("stabilization_fullPosture", [9]), ("stabilization_comTask", [9, 9, 9]),
       ("stabilization_torsoCartesianTask", [9, 9, 9]), ("otherTask", [7])] }

def c8base : ThreadState := { fState with taskSequence := some stabSeq }

/-- The state `stabPrep c8base` returns: flag set, the three stabilization
tasks re-targeted to the captured initial references, `otherTask` untouched. -/
def c8prep : ThreadState :=
  { c8base with
    isStabilizing := true
    stabilizeCalls := 1
    taskSequence := some { emptyTaskSeq with managers :=
      [("stabilization_fullPosture", [0]), ("stabilization_comTask", [0, 0, 0]),
       ("stabilization_torsoCartesianTask", [0, 0, 0]), ("otherTask", [7])] } }

/-- `fState` with the stabilization flag already set. -/
def c8s : ThreadState := { fState with isStabilizing := true }

/-- `c8s` after one cycle under `wRun0`. -/
def c8s1 : ThreadState :=
  { c8s with
    torques := [0]
    time_sim := 1 / 100 }

/-- The state `threadInit wInit (mkThread dbgFloatOpts 1 (-1) 1)` returns
alongside `false`: only the RPC port and the captured references changed. -/
def c4out : ThreadState :=
  { mkThread dbgFloatOpts 1 (-1) 1 with rpcPortOpen := true }

/-- A floating-base thread that has already torn down once: status STOPPED
and one completed stabilization. -/
def c7State : ThreadState :=
  { fState with
    controllerStatus := ControllerStatus.CONTROLLER_STOPPED
    stabilizeCalls := 1
    isStabilizing := true }

/-- The state `threadRelease wRelEnv fState` returns. -/
def w6out : ThreadState :=
  { mkThread fOpts 1 (-1) 1 with
    isStabilizing := true
    taskSequence := some emptyTaskSeq
    time_sim := 1 / 100
    torques := [0]
    lastPosCommand := some [0]
    stabilizeCalls := 1 }

/-- A sample inbound message: a status query, the three lifecycle commands
that drive no transition, and a robot-name query. -/
def c9msgs : List MsgTag :=
  [MsgTag.GET_CONTROLLER_STATUS, MsgTag.PAUSE_CONTROLLER, MsgTag.START_CONTROLLER,
   MsgTag.STOP_CONTROLLER, MsgTag.GET_ROBOT_NAME]

/-! Helper lemmas. -/

theorem coreAgrees_refl (s : ThreadState) : CoreAgrees s s :=
  ⟨rfl, rfl, rfl, rfl, rfl, rfl, rfl, rfl, rfl, rfl, rfl, rfl, rfl, rfl⟩

theorem coreAgrees_trans {a b c : ThreadState} (h1 : CoreAgrees a b) (h2 : CoreAgrees b c) :
    CoreAgrees a c :=
  ⟨h2.opts.trans h1.opts, h2.dofs.trans h1.dofs, h2.fixedRoot.trans h1.fixedRoot,
   h2.stab.trans h1.stab, h2.status.trans h1.status, h2.minT.trans h1.minT,
   h2.maxT.trans h1.maxT, h2.initPos.trans h1.initPos, h2.initCoM.trans h1.initCoM,
   h2.initTorso.trans h1.initTorso, h2.rpc.trans h1.rpc, h2.dbgPorts.trans h1.dbgPorts,
   h2.lastPos.trans h1.lastPos, h2.stabCalls.trans h1.stabCalls⟩

theorem clampVec_getD_bounds : ∀ (t lo hi : List Rat) (i : Nat),
    i < (clampVec t lo hi).length → lo.getD i 0 ≤ hi.getD i 0 →
    lo.getD i 0 ≤ (clampVec t lo hi).getD i 0 ∧ (clampVec t lo hi).getD i 0 ≤ hi.getD i 0 := by
  intro t
  induction t with
  | nil => intro lo hi i h; simp [clampVec] at h
  | cons x ts ih =>
    intro lo hi i h hlohi
    cases lo with
    | nil => simp [clampVec] at h
    | cons l los =>
      cases hi with
      | nil => simp [clampVec] at h
      | cons u his =>
        cases i with
        | zero =>
          simp only [clampVec, List.getD_cons_zero] at hlohi ⊢
          exact ⟨le_min (le_max_right x l) hlohi, min_le_right _ _⟩
        | succ n =>
          simp only [clampVec, List.getD_cons_succ, List.length_cons] at h hlohi ⊢
          exact ih los his n (by omega) hlohi

theorem debugPhase_core (env : RunEnv) (s : ThreadState) :
    CoreAgrees s (debugPhase env s) ∧ (debugPhase env s).taskSequence = s.taskSequence ∧
      (debugPhase env s).time_sim = s.time_sim ∧
      (debugPhase env s).jointVelocities = s.jointVelocities := by
  unfold debugPhase
  cases env.debugPortInput with
  | none => exact ⟨coreAgrees_refl s, rfl, rfl, rfl⟩
  | some k =>
    dsimp only
    by_cases hk : 0 ≤ k ∧ k < (s.dofs : Int)
    · rw [if_pos hk]
      exact ⟨⟨rfl, rfl, rfl, rfl, rfl, rfl, rfl, rfl, rfl, rfl, rfl, rfl, rfl, rfl⟩, rfl, rfl, rfl⟩
    · rw [if_neg hk]
      exact ⟨coreAgrees_refl s, rfl, rfl, rfl⟩

theorem modelUpdatePhase_core (env : RunEnv) (s : ThreadState) :
    CoreAgrees s (modelUpdatePhase env s) ∧
      (modelUpdatePhase env s).taskSequence = s.taskSequence ∧
      (modelUpdatePhase env s).time_sim = s.time_sim :=
  ⟨⟨rfl, rfl, rfl, rfl, rfl, rfl, rfl, rfl, rfl, rfl, rfl, rfl, rfl, rfl⟩, rfl, rfl⟩

theorem seqUpdatePhase_core {env : RunEnv} {s s1 : ThreadState}
    (h : seqUpdatePhase env s = some s1) :
    CoreAgrees s s1 ∧ s1.time_sim = s.time_sim ∧ s1.jointVelocities = s.jointVelocities := by
  unfold seqUpdatePhase at h
  split at h
  · injection h with h
    subst h
    exact ⟨(debugPhase_core env s).1, (debugPhase_core env s).2.2.1,
      (debugPhase_core env s).2.2.2⟩
  · split at h
    · obtain ⟨seq, hseq, h⟩ := Option.map_eq_some'.mp h
      subst h
      exact ⟨⟨rfl, rfl, rfl, rfl, rfl, rfl, rfl, rfl, rfl, rfl, rfl, rfl, rfl, rfl⟩, rfl, rfl⟩
    · injection h with h
      subst h
      exact ⟨coreAgrees_refl s, rfl, rfl⟩

theorem run_some_spec {env : RunEnv} {s s' : ThreadState} {d : TorqueDispatch}
    (h : run env s = some (s', d)) :
    CoreAgrees s s' ∧
      s'.time_sim = s.time_sim + TIME_MSEC_TO_SEC * (s.ctrlOptions.threadPeriod : Rat) ∧
      s'.torques = clampVec env.computeOutput s.minTorques s.maxTorques := by
  unfold run at h
  obtain ⟨s1, h1, h2⟩ := Option.map_eq_some'.mp h
  obtain ⟨A1, -, At⟩ := modelUpdatePhase_core env s
  obtain ⟨B1, Bt, -⟩ := seqUpdatePhase_core h1
  have hopts : s1.ctrlOptions = s.ctrlOptions := B1.opts.trans A1.opts
  have hs' : s' = (finishRun env s1).1 := (congrArg Prod.fst h2).symm
  subst hs'
  refine ⟨coreAgrees_trans (coreAgrees_trans A1 B1)
    ⟨rfl, rfl, rfl, rfl, rfl, rfl, rfl, rfl, rfl, rfl, rfl, rfl, rfl, rfl⟩, ?_, ?_⟩
  · show s1.time_sim + TIME_MSEC_TO_SEC * (s1.ctrlOptions.threadPeriod : Rat) = _
    rw [Bt, At, hopts]
  · show clampVec env.computeOutput s1.minTorques s1.maxTorques = _
    rw [B1.minT.trans A1.minT, B1.maxT.trans A1.maxT]

theorem run_dispatch_spec {env : RunEnv} {s s' : ThreadState} {d : TorqueDispatch}
    (h : run env s = some (s', d)) :
    (∀ taus, d = TorqueDispatch.allJoints taus →
        taus = clampVec env.computeOutput s.minTorques s.maxTorques) ∧
    (∀ j tau, d = TorqueDispatch.singleJoint j tau →
        tau = (clampVec env.computeOutput s.minTorques s.maxTorques).getD j 0) := by
  unfold run at h
  obtain ⟨s1, h1, h2⟩ := Option.map_eq_some'.mp h
  obtain ⟨A1, -, -⟩ := modelUpdatePhase_core env s
  obtain ⟨B1, -, -⟩ := seqUpdatePhase_core h1
  have hd : d = dispatchOf s1 (clampVec env.computeOutput s.minTorques s.maxTorques) := by
    have : d = (finishRun env s1).2 := (congrArg Prod.snd h2).symm
    rw [this]
    show dispatchOf s1 (clampVec env.computeOutput s1.minTorques s1.maxTorques) = _
    rw [B1.minT.trans A1.minT, B1.maxT.trans A1.maxT]
  constructor
  · intro taus he
    rw [he] at hd
    unfold dispatchOf at hd
    split at hd
    · exact TorqueDispatch.noConfusion hd
    · injection hd with hd
  · intro j tau he
    rw [he] at hd
    unfold dispatchOf at hd
    split at hd
    · injection hd with hj ht
      rw [hj, ht]
    · exact TorqueDispatch.noConfusion hd

theorem run_velocities {env : RunEnv} {s s' : ThreadState} {d : TorqueDispatch}
    (h : run env s = some (s', d)) :
    s'.jointVelocities = if env.updateOk then env.jointVelocities else s.jointVelocities := by
  unfold run at h
  obtain ⟨s1, h1, h2⟩ := Option.map_eq_some'.mp h
  obtain ⟨-, -, Bv⟩ := seqUpdatePhase_core h1
  have hs' : s' = (finishRun env s1).1 := (congrArg Prod.fst h2).symm
  subst hs'
  show s1.jointVelocities = _
  rw [Bv]
  rfl

theorem seqUpdatePhase_stab (env : RunEnv) {s : ThreadState} (hst : s.isStabilizing = true) :
    ∃ s1, seqUpdatePhase env s = some s1 ∧ s1.taskSequence = s.taskSequence ∧
      CoreAgrees s s1 := by
  unfold seqUpdatePhase
  by_cases hdbg : s.ctrlOptions.runInDebugMode = true
  · rw [if_pos hdbg]
    exact ⟨debugPhase env s, rfl, (debugPhase_core env s).2.1, (debugPhase_core env s).1⟩
  · rw [if_neg hdbg, if_neg (by simp [hst])]
    exact ⟨s, rfl, rfl, coreAgrees_refl s⟩

theorem run_stab_total (env : RunEnv) {s : ThreadState} (hst : s.isStabilizing = true) :
    ∃ s' d, run env s = some (s', d) ∧ s'.taskSequence = s.taskSequence := by
  have hstm : (modelUpdatePhase env s).isStabilizing = true := hst
  obtain ⟨s1, h1, hseq, -⟩ := seqUpdatePhase_stab env hstm
  refine ⟨(finishRun env s1).1, (finishRun env s1).2, ?_, ?_⟩
  · unfold run
    rw [h1]
    rfl
  · exact hseq

theorem run_stab_seq {env : RunEnv} {s s' : ThreadState} {d : TorqueDispatch}
    (hst : s.isStabilizing = true) (h : run env s = some (s', d)) :
    s'.taskSequence = s.taskSequence := by
  obtain ⟨s2, d2, h2, hseq⟩ := run_stab_total env hst
  rw [h] at h2
  injection h2 with h2
  injection h2 with ha hb
  subst ha
  exact hseq

theorem runStep_eq {env : RunEnv} {s s1 : ThreadState} :
    runStep env s = some s1 ↔ ∃ d, run env s = some (s1, d) := by
  unfold runStep
  constructor
  · intro h
    obtain ⟨⟨a, b⟩, hr, he⟩ := Option.map_eq_some'.mp h
    refine ⟨b, ?_⟩
    rw [hr]
    have : a = s1 := he
    rw [this]
  · rintro ⟨d, h⟩
    rw [h]
    rfl

theorem stabLoop_some_spec : ∀ (fuel k : Nat) (envs : Nat → RunEnv) (clock : Nat → Rat)
    (t0 : Rat) (s s' : ThreadState), s.isStabilizing = true →
    stabLoop envs clock t0 fuel k s = some s' →
    CoreAgrees s s' ∧ s'.taskSequence = s.taskSequence := by
  intro fuel
  induction fuel with
  | zero =>
    intro k envs clock t0 s s' hst h
    exact Option.noConfusion h
  | succ n ih =>
    intro k envs clock t0 s s' hst h
    simp only [stabLoop] at h
    obtain ⟨s1, hr, h⟩ := Option.bind_eq_some.mp h
    obtain ⟨d, hrun⟩ := runStep_eq.mp hr
    obtain ⟨hagr, -, -⟩ := run_some_spec hrun
    have hseq1 : s1.taskSequence = s.taskSequence := run_stab_seq hst hrun
    have hst1 : s1.isStabilizing = true := hagr.stab.trans hst
    split at h
    · injection h with h
      subst h
      exact ⟨hagr, hseq1⟩
    · obtain ⟨hagr2, hseq2⟩ := ih (k + 1) envs clock t0 s1 s' hst1 h
      exact ⟨coreAgrees_trans hagr hagr2, hseq2.trans hseq1⟩

theorem stabLoop_total : ∀ (fuel k j : Nat) (envs : Nat → RunEnv) (clock : Nat → Rat)
    (t0 : Rat) (s : ThreadState), s.isStabilizing = true → k ≤ j → j < k + fuel →
    STABILIZATION_TIMEOUT ≤ clock j - t0 →
    ∃ s', stabLoop envs clock t0 fuel k s = some s' := by
  intro fuel
  induction fuel with
  | zero =>
    intro k j envs clock t0 s _ hkj hjf _
    omega
  | succ n ih =>
    intro k j envs clock t0 s hst hkj hjf hcl
    obtain ⟨s1, d, hrun, -⟩ := run_stab_total (envs k) hst
    have hstep : runStep (envs k) s = some s1 := runStep_eq.mpr ⟨d, hrun⟩
    simp only [stabLoop]
    by_cases hex : isRobotStable s1 = true ∨ STABILIZATION_TIMEOUT ≤ clock k - t0
    · refine ⟨s1, ?_⟩
      rw [hstep, Option.some_bind, if_pos hex]
    · have hst1 : s1.isStabilizing = true := (run_some_spec hrun).1.stab.trans hst
      have hne : j ≠ k := fun e => hex (Or.inr (e ▸ hcl))
      obtain ⟨s', h'⟩ := ih (k + 1) j envs clock t0 s1 hst1 (by omega) (by omega) hcl
      refine ⟨s', ?_⟩
      rw [hstep, Option.some_bind, if_neg hex]
      exact h'

theorem findTarget_retarget_ne (k key : String) (v : List Rat) (l : List (String × List Rat))
    (hne : k ≠ key) : findTarget k (retarget key v l) = findTarget k l := by
  induction l with
  | nil => rfl
  | cons p rest ih =>
    obtain ⟨pk, pv⟩ := p
    simp only [retarget]
    by_cases hp : pk = key
    · rw [if_pos hp]
      have hpk : ¬pk = k := by rw [hp]; exact fun e => hne e.symm
      simp only [findTarget, if_neg hpk]
    · rw [if_neg hp]
      simp only [findTarget]
      by_cases hpk : pk = k
      · rw [if_pos hpk, if_pos hpk]
      · rw [if_neg hpk, if_neg hpk, ih]

theorem findTarget_retarget_isSome (k key : String) (v : List Rat)
    (l : List (String × List Rat)) :
    (findTarget k (retarget key v l)).isSome = (findTarget k l).isSome := by
  induction l with
  | nil => rfl
  | cons p rest ih =>
    obtain ⟨pk, pv⟩ := p
    simp only [retarget]
    by_cases hp : pk = key
    · rw [if_pos hp]
      simp only [findTarget]
      by_cases hpk : pk = k
      · rw [if_pos hpk, if_pos hpk]
        rfl
      · rw [if_neg hpk, if_neg hpk]
    · rw [if_neg hp]
      simp only [findTarget]
      by_cases hpk : pk = k
      · rw [if_pos hpk, if_pos hpk]
      · rw [if_neg hpk, if_neg hpk, ih]

theorem setTarget_eq_some {key : String} {v : List Rat} {seq seq' : TaskSeq}
    (h : setTarget key v seq = some seq') :
    seq'.managers = retarget key v seq.managers ∧ seq'.initCount = seq.initCount ∧
      seq'.updateCount = seq.updateCount ∧ seq'.lastUpdateTime = seq.lastUpdateTime := by
  unfold setTarget at h
  cases hf : findTarget key seq.managers with
  | none => rw [hf] at h; exact Option.noConfusion h
  | some w =>
    rw [hf] at h
    injection h with h
    subst h
    exact ⟨rfl, rfl, rfl, rfl⟩

theorem setTarget_total {key : String} (v : List Rat) {seq : TaskSeq}
    (h : (findTarget key seq.managers).isSome = true) :
    ∃ seq', setTarget key v seq = some seq' := by
  unfold setTarget
  cases hf : findTarget key seq.managers with
  | none => rw [hf] at h; exact Bool.noConfusion h
  | some w => exact ⟨_, rfl⟩

theorem stabPrep_spec {s sp : ThreadState} (h : stabPrep s = some sp) :
    sp.isStabilizing = true ∧ sp.stabilizeCalls = s.stabilizeCalls + 1 ∧
    sp.controllerStatus = s.controllerStatus ∧ sp.lastPosCommand = s.lastPosCommand ∧
    sp.initialPosture = s.initialPosture ∧ sp.ctrlOptions = s.ctrlOptions ∧
    sp.fixedRoot = s.fixedRoot ∧
    ∃ seq seqC, s.taskSequence = some seq ∧ sp.taskSequence = some seqC ∧
      seqC.initCount = seq.initCount ∧ seqC.updateCount = seq.updateCount ∧
      seqC.lastUpdateTime = seq.lastUpdateTime ∧
      (∀ key, key ≠ "stabilization_fullPosture" → key ≠ "stabilization_comTask" →
        key ≠ "stabilization_torsoCartesianTask" →
        findTarget key seqC.managers = findTarget key seq.managers) := by
  unfold stabPrep at h
  obtain ⟨seq, hseq, h⟩ := Option.bind_eq_some.mp h
  obtain ⟨seqA, hA, h⟩ := Option.bind_eq_some.mp h
  obtain ⟨seqB, hB, h⟩ := Option.bind_eq_some.mp h
  obtain ⟨seqC, hC, h⟩ := Option.map_eq_some'.mp h
  subst h
  obtain ⟨mA, iA, uA, lA⟩ := setTarget_eq_some hA
  obtain ⟨mB, iB, uB, lB⟩ := setTarget_eq_some hB
  obtain ⟨mC, iC, uC, lC⟩ := setTarget_eq_some hC
  refine ⟨rfl, rfl, rfl, rfl, rfl, rfl, rfl, seq, seqC, hseq, rfl,
    iC.trans (iB.trans iA), uC.trans (uB.trans uA), lC.trans (lB.trans lA), ?_⟩
  intro key h1 h2 h3
  rw [mC, findTarget_retarget_ne _ _ _ _ h3, mB, findTarget_retarget_ne _ _ _ _ h2,
    mA, findTarget_retarget_ne _ _ _ _ h1]

theorem stabPrep_total {s : ThreadState} {seq : TaskSeq} (hseq : s.taskSequence = some seq)
    (h1 : (findTarget "stabilization_fullPosture" seq.managers).isSome = true)
    (h2 : (findTarget "stabilization_comTask" seq.managers).isSome = true)
    (h3 : (findTarget "stabilization_torsoCartesianTask" seq.managers).isSome = true) :
    ∃ sp, stabPrep s = some sp := by
  unfold stabPrep
  rw [hseq, Option.some_bind]
  obtain ⟨seqA, hA⟩ := setTarget_total s.initialPosture h1
  rw [hA, Option.some_bind]
  have h2' : (findTarget "stabilization_comTask" seqA.managers).isSome = true := by
    rw [(setTarget_eq_some hA).1, findTarget_retarget_isSome]
    exact h2
  obtain ⟨seqB, hB⟩ := setTarget_total s.initialCoMPosition h2'
  rw [hB, Option.some_bind]
  have h3' : (findTarget "stabilization_torsoCartesianTask" seqB.managers).isSome = true := by
    rw [(setTarget_eq_some hB).1, findTarget_retarget_isSome,
      (setTarget_eq_some hA).1, findTarget_retarget_isSome]
    exact h3
  obtain ⟨seqC, hC⟩ := setTarget_total s.initialTorsoPosition h3'
  rw [hC]
  exact ⟨_, rfl⟩

theorem stabilizeRobot_spec {env : ReleaseEnv} {s s' : ThreadState}
    (h : stabilizeRobot env s = some s') :
    s'.isStabilizing = true ∧ s'.stabilizeCalls = s.stabilizeCalls + 1 ∧
    s'.controllerStatus = s.controllerStatus ∧ s'.lastPosCommand = s.lastPosCommand ∧
    s'.initialPosture = s.initialPosture ∧ s'.ctrlOptions = s.ctrlOptions ∧
    s'.fixedRoot = s.fixedRoot ∧ s'.taskSequence.isSome = true := by
  unfold stabilizeRobot at h
  obtain ⟨sp, hp, hl⟩ := Option.bind_eq_some.mp h
  obtain ⟨P1, P2, P3, P4, P5, P6, P7, seq, seqC, Pseq, PseqC, -, -, -, -⟩ := stabPrep_spec hp
  obtain ⟨L, Lseq⟩ := stabLoop_some_spec _ _ _ _ _ _ _ P1 hl
  refine ⟨L.stab.trans P1, L.stabCalls.trans P2, L.status.trans P3, L.lastPos.trans P4,
    L.initPos.trans P5, L.opts.trans P6, L.fixedRoot.trans P7, ?_⟩
  rw [Lseq, PseqC]
  rfl

theorem stabilizeRobot_seq_frame {env : ReleaseEnv} {s s' : ThreadState} {seq : TaskSeq}
    (hseq : s.taskSequence = some seq) (h : stabilizeRobot env s = some s') :
    ∃ seqC, s'.taskSequence = some seqC ∧ seqC.updateCount = seq.updateCount ∧
      seqC.lastUpdateTime = seq.lastUpdateTime ∧
      (∀ key, key ≠ "stabilization_fullPosture" → key ≠ "stabilization_comTask" →
        key ≠ "stabilization_torsoCartesianTask" →
        findTarget key seqC.managers = findTarget key seq.managers) := by
  unfold stabilizeRobot at h
  obtain ⟨sp, hp, hl⟩ := Option.bind_eq_some.mp h
  obtain ⟨P1, -, -, -, -, -, -, seq0, seqC, Pseq, PseqC, -, Pu, Pl, Pframe⟩ := stabPrep_spec hp
  rw [hseq] at Pseq
  injection Pseq with Pseq
  subst Pseq
  obtain ⟨L, Lseq⟩ := stabLoop_some_spec _ _ _ _ _ _ _ P1 hl
  exact ⟨seqC, Lseq.trans PseqC, Pu, Pl, Pframe⟩

theorem stabilizeRobot_total {env : ReleaseEnv} {s : ThreadState} {seq : TaskSeq} {j : Nat}
    (hseq : s.taskSequence = some seq)
    (h1 : (findTarget "stabilization_fullPosture" seq.managers).isSome = true)
    (h2 : (findTarget "stabilization_comTask" seq.managers).isSome = true)
    (h3 : (findTarget "stabilization_torsoCartesianTask" seq.managers).isSome = true)
    (hj : j < env.fuel) (hcl : STABILIZATION_TIMEOUT ≤ env.clock j - env.startTime) :
    ∃ s', stabilizeRobot env s = some s' := by
  obtain ⟨sp, hp⟩ := stabPrep_total hseq h1 h2 h3
  have hst : sp.isStabilizing = true := (stabPrep_spec hp).1
  obtain ⟨s', hs'⟩ := stabLoop_total env.fuel 0 j env.stabRunEnvs env.clock env.startTime sp
    hst (Nat.zero_le j) (by omega) hcl
  refine ⟨s', ?_⟩
  unfold stabilizeRobot
  rw [hp]
  exact hs'

theorem optMap_isSome {α β : Type} (f : α → β) (x : Option α) :
    (x.map f).isSome = x.isSome := by
  cases x <;> rfl

theorem finishInit_spec {s : ThreadState} {b : Bool} {s' : ThreadState}
    (h : finishInit s = some (b, s')) :
    b = true ∧ s'.ctrlOptions = s.ctrlOptions ∧ s'.time_sim = s.time_sim ∧
      s'.isStabilizing = s.isStabilizing ∧ s'.stabilizeCalls = s.stabilizeCalls ∧
      s'.rpcPortOpen = s.rpcPortOpen ∧ s'.debugPortsOpen = s.debugPortsOpen ∧
      s'.controllerStatus = ControllerStatus.CONTROLLER_RUNNING ∧
      s'.taskSequence.isSome = true := by
  unfold finishInit at h
  obtain ⟨seq, hseq, h⟩ := Option.map_eq_some'.mp h
  injection h with hb hs
  subst hb
  subst hs
  exact ⟨rfl, rfl, rfl, rfl, rfl, rfl, rfl, rfl, rfl⟩

theorem finishInit_none {s : ThreadState} (h : s.taskSequence = none) :
    finishInit s = none := by
  unfold finishInit
  rw [h]
  rfl

theorem threadInit_spec {env : InitEnv} {s : ThreadState} {b : Bool} {s' : ThreadState}
    (h : threadInit env s = some (b, s')) :
    s'.ctrlOptions = s.ctrlOptions ∧ s'.time_sim = s.time_sim ∧
    s'.isStabilizing = s.isStabilizing ∧ s'.stabilizeCalls = s.stabilizeCalls ∧
    s'.rpcPortOpen = true ∧
    s'.controllerStatus =
      (if b = true then ControllerStatus.CONTROLLER_RUNNING else s.controllerStatus) ∧
    (b = false → s'.debugPortsOpen = s.debugPortsOpen) := by
  unfold threadInit at h
  by_cases hdbg : s.ctrlOptions.runInDebugMode = true
  · rw [if_pos hdbg] at h
    by_cases hfix : s.fixedRoot = true
    · rw [if_pos hfix] at h
      obtain ⟨hb, F1, F2, F3, F4, F5, F6, F7, -⟩ := finishInit_spec h
      refine ⟨F1, F2, F3, F4, F5, ?_, ?_⟩
      · rw [hb, if_pos rfl]
        exact F7
      · intro hb'
        exact Bool.noConfusion (hb.symm.trans hb')
    · rw [if_neg hfix] at h
      injection h with h
      injection h with hb hs
      subst hs
      refine ⟨rfl, rfl, rfl, rfl, rfl, ?_, fun _ => rfl⟩
      rw [← hb, if_neg (by simp)]
      rfl
  · rw [if_neg hdbg] at h
    obtain ⟨hb, F1, F2, F3, F4, F5, F6, F7, -⟩ := finishInit_spec h
    refine ⟨F1, F2, F3, F4, F5, ?_, ?_⟩
    · rw [hb, if_pos rfl]
      exact F7
    · intro hb'
      exact Bool.noConfusion (hb.symm.trans hb')

theorem runN_spec (envs : Nat → RunEnv) : ∀ (n : Nat) (s s' : ThreadState),
    runN envs n s = some s' →
    s'.ctrlOptions = s.ctrlOptions ∧
    s'.time_sim = s.time_sim + n * (TIME_MSEC_TO_SEC * (s.ctrlOptions.threadPeriod : Rat)) := by
  intro n
  induction n with
  | zero =>
    intro s s' h
    injection h with h
    subst h
    exact ⟨rfl, by simp⟩
  | succ n ih =>
    intro s s' h
    simp only [runN] at h
    obtain ⟨sk, hk, hstep⟩ := Option.bind_eq_some.mp h
    obtain ⟨hopts, htime⟩ := ih s sk hk
    obtain ⟨d, hrun⟩ := runStep_eq.mp hstep
    obtain ⟨A, At, -⟩ := run_some_spec hrun
    refine ⟨A.opts.trans hopts, ?_⟩
    rw [At, htime, hopts]
    push_cast
    ring

theorem afterStab_spec {env : ReleaseEnv} {s s2 : ThreadState}
    (h : afterStabPhase env s = some s2) (hsome : s.taskSequence.isSome = true) :
    s2.controllerStatus = s.controllerStatus ∧ s2.lastPosCommand = s.lastPosCommand ∧
    s2.initialPosture = s.initialPosture ∧ s2.taskSequence.isSome = true ∧
    s2.stabilizeCalls = (if s.fixedRoot = false ∧ env.stabLoadOk = true then
      s.stabilizeCalls + 1 else s.stabilizeCalls) ∧
    (s.isStabilizing = true → s2.isStabilizing = true) := by
  unfold afterStabPhase at h
  by_cases hfix : s.fixedRoot = false
  · rw [if_pos hfix] at h
    by_cases hload : (loadStabilizationTasks env s).1 = true
    · rw [if_pos hload] at h
      obtain ⟨S1, S2, S3, S4, S5, S6, S7, S8⟩ := stabilizeRobot_spec h
      refine ⟨S3, S4, S5, S8, ?_, fun _ => S1⟩
      rw [if_pos ⟨hfix, hload⟩]
      exact S2
    · rw [if_neg hload] at h
      injection h with h
      subst h
      refine ⟨rfl, rfl, rfl, ?_, ?_, fun hs => hs⟩
      · show (s.taskSequence.map (addManagers env.stabManagers)).isSome = true
        rw [optMap_isSome]
        exact hsome
      · rw [if_neg (fun hc => hload hc.2)]
        rfl
  · rw [if_neg hfix] at h
    injection h with h
    subst h
    refine ⟨rfl, rfl, rfl, hsome, ?_, fun hs => hs⟩
    rw [if_neg (fun hc => hfix hc.1)]

theorem afterStab_total_float {env : ReleaseEnv} (s : ThreadState) {seq : TaskSeq} {j : Nat}
    (hseq : s.taskSequence = some seq) (hfix : s.fixedRoot = false)
    (hload : env.stabLoadOk = true)
    (h1 : (findTarget "stabilization_fullPosture" (seq.managers ++ env.stabManagers)).isSome = true)
    (h2 : (findTarget "stabilization_comTask" (seq.managers ++ env.stabManagers)).isSome = true)
    (h3 : (findTarget "stabilization_torsoCartesianTask" (seq.managers ++ env.stabManagers)).isSome = true)
    (hj : j < env.fuel) (hcl : STABILIZATION_TIMEOUT ≤ env.clock j - env.startTime) :
    ∃ s2, afterStabPhase env s = some s2 := by
  unfold afterStabPhase
  rw [if_pos hfix, if_pos (show (loadStabilizationTasks env s).1 = true from hload)]
  have hseqL : (loadStabilizationTasks env s).2.taskSequence =
      some (addManagers env.stabManagers seq) := by
    show s.taskSequence.map (addManagers env.stabManagers) = _
    rw [hseq]
    rfl
  exact stabilizeRobot_total hseqL h1 h2 h3 hj hcl

theorem afterStab_fixed {env : ReleaseEnv} {s : ThreadState} (hfix : s.fixedRoot = true) :
    afterStabPhase env s = some s := by
  unfold afterStabPhase
  simp [hfix]

theorem posModePhase_spec {env : ReleaseEnv} {s s' : ThreadState}
    (h : posModePhase env s = some s') :
    (env.setPosModeOk = true →
       s'.controllerStatus = ControllerStatus.CONTROLLER_STOPPED ∧
       s'.lastPosCommand = some s.initialPosture ∧
       s'.taskSequence.map TaskSeq.managers = some [] ∧
       s'.stabilizeCalls = s.stabilizeCalls ∧ s'.isStabilizing = s.isStabilizing) ∧
    (env.setPosModeOk = false → s' = s) := by
  unfold posModePhase at h
  by_cases hok : env.setPosModeOk = true
  · rw [if_pos hok] at h
    obtain ⟨seq2, hs2, h⟩ := Option.map_eq_some'.mp h
    subst h
    constructor
    · intro _
      exact ⟨rfl, rfl, rfl, rfl, rfl⟩
    · intro hok'
      exact Bool.noConfusion (hok.symm.trans hok')
  · rw [if_neg hok] at h
    injection h with h
    subst h
    constructor
    · intro hok'
      exact absurd hok' hok
    · intro _
      rfl

theorem posModePhase_total (env : ReleaseEnv) (s : ThreadState)
    (hsome : s.taskSequence.isSome = true) :
    ∃ s', posModePhase env s = some s' := by
  unfold posModePhase
  by_cases hok : env.setPosModeOk = true
  · rw [if_pos hok]
    cases hseq : s.taskSequence with
    | none => rw [hseq] at hsome; exact Bool.noConfusion hsome
    | some q => exact ⟨_, rfl⟩
  · rw [if_neg hok]
    exact ⟨s, rfl⟩

theorem parseMsgLoop_spec (s : ThreadState) :
    ∀ (input : List MsgTag) (acc : List ReplyVal),
    parseMsgLoop s input acc = (s, acc ++ input.flatMap (replyOf s)) := by
  intro input
  induction input with
  | nil =>
    intro acc
    simp [parseMsgLoop]
  | cons t rest ih =>
    intro acc
    simp only [parseMsgLoop, ih, List.flatMap_cons, List.append_assoc]

/-! Claim theorems. -/

/-- Claim C1: every component of the torque vector dispatched to the
actuation interface by a completed `run()` cycle lies within the
corresponding `[min_i, max_i]` bound — the clamp is applied elementwise and
unconditionally before dispatch, in normal mode (full vector sent) and in
debug mode (single joint sent), even when the unclamped controller output is
out of range. -/
theorem torque_dispatch_clamped (env : RunEnv) (s s' : ThreadState) (d : TorqueDispatch)
    (h : run env s = some (s', d)) :
    (∀ taus, d = TorqueDispatch.allJoints taus → ∀ i, i < taus.length →
        s.minTorques.getD i 0 ≤ s.maxTorques.getD i 0 →
        s.minTorques.getD i 0 ≤ taus.getD i 0 ∧ taus.getD i 0 ≤ s.maxTorques.getD i 0) ∧
    (∀ j tau, d = TorqueDispatch.singleJoint j tau →
        j < (clampVec env.computeOutput s.minTorques s.maxTorques).length →
        s.minTorques.getD j 0 ≤ s.maxTorques.getD j 0 →
        s.minTorques.getD j 0 ≤ tau ∧ tau ≤ s.maxTorques.getD j 0) := by
  obtain ⟨hall, hsingle⟩ := run_dispatch_spec h
  constructor
  · intro taus he i hi hminmax
    have ht := hall taus he
    subst ht
    exact clampVec_getD_bounds env.computeOutput s.minTorques s.maxTorques i hi hminmax
  · intro j tau he hj hminmax
    have ht := hsingle j tau he
    subst ht
    exact clampVec_getD_bounds env.computeOutput s.minTorques s.maxTorques j hj hminmax

/-- Witness for `torque_dispatch_clamped`: a concrete cycle whose raw
controller output (5) exceeds the upper bound (1); the dispatched component
is the clamped value 1, inside the bounds. -/
theorem torque_dispatch_clamped_witness :
    run wRun c2s1 = some (c2s1a, TorqueDispatch.allJoints [1]) ∧
    c2s1.minTorques.getD 0 0 ≤ c2s1.maxTorques.getD 0 0 ∧
    (c2s1.minTorques.getD 0 0 ≤ ([(1 : Rat)]).getD 0 0 ∧
      ([(1 : Rat)]).getD 0 0 ≤ c2s1.maxTorques.getD 0 0) := by
  refine ⟨by with_unfolding_all decide, by with_unfolding_all decide, ?_⟩
  exact (torque_dispatch_clamped wRun c2s1 c2s1a (TorqueDispatch.allJoints [1]) (by with_unfolding_all decide)).1
    [1] rfl 0 (by with_unfolding_all decide) (by with_unfolding_all decide)

/-- Claim C2: for any period P > 0, once `initialize()` has succeeded,
SimulatedTime after N steps equals exactly N·P converted to seconds
(starting from 0 at construction); it advances by exactly one period per
step and strictly increases — no wall-clock quantity enters the
computation. -/
theorem simulated_time_exact (opts : OcraControllerOptions) (dofs : Nat) (tmin tmax : Rat)
    (ienv : InitEnv) (envs : Nat → RunEnv) (N : Nat) (s1 sN : ThreadState)
    (hP : 0 < opts.threadPeriod)
    (hinit : threadInit ienv (mkThread opts dofs tmin tmax) = some (true, s1))
    (hrun : runN envs N s1 = some sN) :
    sN.time_sim = (N : Rat) * (TIME_MSEC_TO_SEC * (opts.threadPeriod : Rat)) ∧
    (∀ k sk sk', runN envs k s1 = some sk → runN envs (k + 1) s1 = some sk' →
        sk'.time_sim = sk.time_sim + TIME_MSEC_TO_SEC * (opts.threadPeriod : Rat) ∧
        sk.time_sim < sk'.time_sim) := by
  obtain ⟨I1, I2, -, -, -, -, -⟩ := threadInit_spec hinit
  have hopts1 : s1.ctrlOptions = opts := I1
  have htime1 : s1.time_sim = 0 := I2
  obtain ⟨RN1, RN2⟩ := runN_spec envs N s1 sN hrun
  have hinc : (0 : Rat) < TIME_MSEC_TO_SEC * (opts.threadPeriod : Rat) := by
    have hp' : (0 : Rat) < (opts.threadPeriod : Rat) := by exact_mod_cast hP
    have h2 : (0 : Rat) < TIME_MSEC_TO_SEC := by norm_num [TIME_MSEC_TO_SEC]
    exact mul_pos h2 hp'
  constructor
  · rw [RN2, htime1, hopts1]
    ring
  · intro k sk sk' hk hk'
    simp only [runN] at hk'
    rw [hk, Option.some_bind] at hk'
    obtain ⟨d, hrunk⟩ := runStep_eq.mp hk'
    obtain ⟨A, At, -⟩ := run_some_spec hrunk
    have hoptsk : sk.ctrlOptions = opts := (runN_spec envs k s1 sk hk).1.trans hopts1
    constructor
    · rw [At, hoptsk]
    · rw [At, hoptsk]
      exact lt_add_of_pos_right _ hinc

/-- Witness for `simulated_time_exact`: period 10 ms, two steps, SimulatedTime
is exactly 2·(10/1000) s. -/
theorem simulated_time_exact_witness :
    0 < wOpts.threadPeriod ∧
    threadInit wInit (mkThread wOpts 1 (-1) 1) = some (true, c2s1) ∧
    runN wEnvs 2 c2s1 = some c2s2 ∧
    c2s2.time_sim = ((2 : Nat) : Rat) * (TIME_MSEC_TO_SEC * ((wOpts.threadPeriod : Nat) : Rat)) := by
  refine ⟨by with_unfolding_all decide, by with_unfolding_all decide, by with_unfolding_all decide, ?_⟩
  exact (simulated_time_exact wOpts 1 (-1) 1 wInit wEnvs 2 c2s1 c2s2 (by with_unfolding_all decide) (by with_unfolding_all decide)
    (by with_unfolding_all decide)).1

/-- Claim C3 (code-bug evidence): in the spec's scenario — floating base,
normal mode, no startup task-set path, no startup sequence name (DoF 6,
period 10 ms) — the "Loading floating base minimal tasks..." branch only
prints (its `LoadSequence` call is commented out in the source), so no
sequence is ever constructed and the unconditional `taskSequence->init` at
line 205 dereferences null: `threadInit` faults (`none`) instead of loading
the default floating-base minimal task set, returning true and reaching
RUNNING. -/
theorem c3_default_load_fault :
    (mkThread fOpts 6 (-1) 1).taskSequence = none ∧
    normalModeSeq wInit (capturePhase wInit (mkThread fOpts 6 (-1) 1)) = none ∧
    threadInit wInit (mkThread fOpts 6 (-1) 1) = none := by
  exact ⟨by with_unfolding_all decide, by with_unfolding_all decide, by with_unfolding_all decide⟩

/-- Claim C4 counterexample: with debug mode requested on a floating base,
`initialize()` does return false, the status stays STOPPED, and the debug
ports stay closed — but "no ports are opened" is false: the RPC server port
was already opened at the top of `threadInit` (line 107) and is open in the
returned state. -/
theorem c4_ports_counterexample :
    threadInit wInit (mkThread dbgFloatOpts 1 (-1) 1) = some (false, c4out) ∧
    c4out.rpcPortOpen = true ∧
    c4out.controllerStatus = ControllerStatus.CONTROLLER_STOPPED ∧
    c4out.debugPortsOpen = false := by
  exact ⟨by with_unfolding_all decide, by with_unfolding_all decide, by with_unfolding_all decide, by with_unfolding_all decide⟩

/-- Claim C4 (amended): if debug mode is requested on a floating-base robot,
`initialize()` returns false, the controller status remains STOPPED, the
thread does not start stepping, and the debug ports are not opened; the
command-channel RPC port, however, has already been opened before the check
and remains open. -/
theorem c4_amended (env : InitEnv) (opts : OcraControllerOptions) (dofs : Nat)
    (tmin tmax : Rat) (hdbg : opts.runInDebugMode = true)
    (hfb : opts.isFloatingBase = true) :
    ∃ s', threadInit env (mkThread opts dofs tmin tmax) = some (false, s') ∧
      s'.controllerStatus = ControllerStatus.CONTROLLER_STOPPED ∧
      s'.debugPortsOpen = false ∧ s'.rpcPortOpen = true ∧
      startsStepping (threadInit env (mkThread opts dofs tmin tmax)) = false := by
  have hfix : (mkThread opts dofs tmin tmax).fixedRoot = false := by
    show (!opts.isFloatingBase) = false
    rw [hfb]
    rfl
  have hd : (mkThread opts dofs tmin tmax).ctrlOptions.runInDebugMode = true := hdbg
  have hmain : threadInit env (mkThread opts dofs tmin tmax) =
      some (false, capturePhase env (mkThread opts dofs tmin tmax)) := by
    unfold threadInit
    rw [if_pos hd, if_neg (by rw [hfix]; simp)]
  refine ⟨capturePhase env (mkThread opts dofs tmin tmax), hmain, rfl, rfl, rfl, ?_⟩
  rw [hmain]
  rfl

/-- Witness for `c4_amended` at a concrete debug-with-floating-base
configuration. -/
theorem c4_amended_witness :
    dbgFloatOpts.runInDebugMode = true ∧ dbgFloatOpts.isFloatingBase = true ∧
    (∃ s', threadInit wInit (mkThread dbgFloatOpts 1 (-1) 1) = some (false, s') ∧
      s'.controllerStatus = ControllerStatus.CONTROLLER_STOPPED ∧
      s'.debugPortsOpen = false ∧ s'.rpcPortOpen = true ∧
      startsStepping (threadInit wInit (mkThread dbgFloatOpts 1 (-1) 1)) = false) :=
  ⟨rfl, rfl, c4_amended wInit dbgFloatOpts 1 (-1) 1 rfl rfl⟩

/-- Claim C5: (i) the stabilization loop terminates — it exits as soon as the
stability predicate (joint-velocity norm at most 0.01) holds or the 1.0 s
timeout has elapsed on the wall clock; (ii) with a model whose joint-velocity
norm is already 0, `stabilizeRobot` returns after its first `run()` through
the stability branch (the branch that prints the completion message); and
(iii) a timeout is never fatal: `teardown` proceeds to the position-mode
switch regardless of which way the loop ended, reaching STOPPED exactly when
the switch succeeds. -/
theorem stabilization_bounded :
    (∀ (envs : Nat → RunEnv) (clock : Nat → Rat) (t0 : Rat) (fuel k j : Nat)
        (s : ThreadState), s.isStabilizing = true → k ≤ j → j < k + fuel →
        STABILIZATION_TIMEOUT ≤ clock j - t0 →
        ∃ s', stabLoop envs clock t0 fuel k s = some s') ∧
    (∀ (env : ReleaseEnv) (s sp : ThreadState) (fuel : Nat), env.fuel = fuel + 1 →
        stabPrep s = some sp →
        (env.stabRunEnvs 0).updateOk = true →
        normSq (env.stabRunEnvs 0).jointVelocities = 0 →
        ∃ s1 d, run (env.stabRunEnvs 0) sp = some (s1, d) ∧
          stabilizeRobot env s = some s1 ∧ isRobotStable s1 = true) ∧
    (∀ (env : ReleaseEnv) (s : ThreadState) (seq : TaskSeq) (j : Nat),
        s.taskSequence = some seq → s.fixedRoot = false → env.stabLoadOk = true →
        (findTarget "stabilization_fullPosture" env.stabManagers).isSome = true →
        (findTarget "stabilization_comTask" env.stabManagers).isSome = true →
        (findTarget "stabilization_torsoCartesianTask" env.stabManagers).isSome = true →
        j < env.fuel → STABILIZATION_TIMEOUT ≤ env.clock j - env.startTime →
        ∃ s', threadRelease env s = some s' ∧
          (env.setPosModeOk = true →
            s'.controllerStatus = ControllerStatus.CONTROLLER_STOPPED) ∧
          (env.setPosModeOk = false → s'.controllerStatus = s.controllerStatus)) := by
  refine ⟨?_, ?_, ?_⟩
  · intro envs clock t0 fuel k j s hst hkj hjf hcl
    exact stabLoop_total fuel k j envs clock t0 s hst hkj hjf hcl
  · intro env s sp fuel hfuel hp hup hnorm
    have hst : sp.isStabilizing = true := (stabPrep_spec hp).1
    obtain ⟨s1, d, hrun, -⟩ := run_stab_total (env.stabRunEnvs 0) hst
    have hjv : s1.jointVelocities = (env.stabRunEnvs 0).jointVelocities := by
      rw [run_velocities hrun, if_pos hup]
    have hstable : isRobotStable s1 = true := by
      unfold isRobotStable
      rw [hjv, hnorm]
      with_unfolding_all decide
    refine ⟨s1, d, hrun, ?_, hstable⟩
    unfold stabilizeRobot
    rw [hp, Option.some_bind, hfuel]
    simp only [stabLoop]
    have hstep : runStep (env.stabRunEnvs 0) sp = some s1 := runStep_eq.mpr ⟨d, hrun⟩
    rw [hstep, Option.some_bind, if_pos (Or.inl hstable)]
  · intro env s seq j hseq hfix hload h1 h2 h3 hj hcl
    have h1' : (findTarget "stabilization_fullPosture"
        ((clearSequence seq).managers ++ env.stabManagers)).isSome = true := by
      show (findTarget _ ([] ++ env.stabManagers)).isSome = true
      rw [List.nil_append]
      exact h1
    have h2' : (findTarget "stabilization_comTask"
        ((clearSequence seq).managers ++ env.stabManagers)).isSome = true := by
      show (findTarget _ ([] ++ env.stabManagers)).isSome = true
      rw [List.nil_append]
      exact h2
    have h3' : (findTarget "stabilization_torsoCartesianTask"
        ((clearSequence seq).managers ++ env.stabManagers)).isSome = true := by
      show (findTarget _ ([] ++ env.stabManagers)).isSome = true
      rw [List.nil_append]
      exact h3
    obtain ⟨s2, hs2⟩ := afterStab_total_float
      { s with taskSequence := some (clearSequence seq) } rfl hfix hload h1' h2' h3' hj hcl
    have hA := afterStab_spec hs2 rfl
    obtain ⟨s', hs'⟩ := posModePhase_total env s2 hA.2.2.2.1
    obtain ⟨P1, P2⟩ := posModePhase_spec hs'
    refine ⟨s', ?_, ?_, ?_⟩
    · unfold threadRelease
      rw [hseq, Option.some_bind, hs2, Option.some_bind]
      exact hs'
    · intro hok
      exact (P1 hok).1
    · intro hnotok
      have hst2 : s2.controllerStatus = s.controllerStatus := hA.1
      rw [P2 hnotok]
      exact hst2

/-- Witness for `stabilization_bounded` (immediate-stability branch): with
the three stabilization tasks present and zero joint velocities, the
procedure returns after one cycle with the stability predicate true. -/
theorem stabilization_bounded_witness :
    wRelEnv.fuel = 0 + 1 ∧
    stabPrep c8base = some c8prep ∧
    (wRelEnv.stabRunEnvs 0).updateOk = true ∧
    normSq (wRelEnv.stabRunEnvs 0).jointVelocities = 0 ∧
    (∃ s1 d, run (wRelEnv.stabRunEnvs 0) c8prep = some (s1, d) ∧
      stabilizeRobot wRelEnv c8base = some s1 ∧ isRobotStable s1 = true) := by
  refine ⟨rfl, by with_unfolding_all decide, rfl, by with_unfolding_all decide, ?_⟩
  exact stabilization_bounded.2.1 wRelEnv c8base c8prep 0 rfl
    (by with_unfolding_all decide) rfl (by with_unfolding_all decide)

/-- Claim C6: in `teardown()` the status becomes STOPPED exactly when the
final position-mode switch succeeds; on success the captured initial posture
is commanded and the task sequence is cleared again; on failure only an
error is logged — the status and the last position command are left
unchanged. -/
theorem teardown_status_iff (env : ReleaseEnv) (s s' : ThreadState)
    (hrun : s.controllerStatus = ControllerStatus.CONTROLLER_RUNNING)
    (h : threadRelease env s = some s') :
    (s'.controllerStatus = ControllerStatus.CONTROLLER_STOPPED ↔ env.setPosModeOk = true) ∧
    (env.setPosModeOk = true →
      s'.lastPosCommand = some s.initialPosture ∧
      s'.taskSequence.map TaskSeq.managers = some []) ∧
    (env.setPosModeOk = false →
      s'.controllerStatus = s.controllerStatus ∧ s'.lastPosCommand = s.lastPosCommand) := by
  unfold threadRelease at h
  obtain ⟨seq, hseq, h⟩ := Option.bind_eq_some.mp h
  obtain ⟨s2, h2, h3⟩ := Option.bind_eq_some.mp h
  have hA := afterStab_spec h2 rfl
  have hst2 : s2.controllerStatus = s.controllerStatus := hA.1
  have hinit2 : s2.initialPosture = s.initialPosture := hA.2.2.1
  have hlast2 : s2.lastPosCommand = s.lastPosCommand := hA.2.1
  obtain ⟨P1, P2⟩ := posModePhase_spec h3
  by_cases hok : env.setPosModeOk = true
  · obtain ⟨Q1, Q2, Q3, -, -⟩ := P1 hok
    refine ⟨⟨fun _ => hok, fun _ => Q1⟩, ?_, ?_⟩
    · intro _
      constructor
      · rw [Q2, hinit2]
      · exact Q3
    · intro hbad
      exact absurd (hok.symm.trans hbad) (by simp)
  · have hfalse : env.setPosModeOk = false := by
      revert hok
      cases env.setPosModeOk <;> simp
    have hs2' : s' = s2 := P2 hfalse
    subst hs2'
    refine ⟨?_, ?_, fun _ => ⟨hst2, hlast2⟩⟩
    · rw [hst2, hrun, hfalse]
      simp
    · intro hok'
      exact absurd hok' hok

/-- Witness for `teardown_status_iff`: a concrete running floating-base
teardown whose position-mode switch succeeds ends STOPPED. -/
theorem teardown_status_iff_witness :
    fState.controllerStatus = ControllerStatus.CONTROLLER_RUNNING ∧
    threadRelease wRelEnv fState = some w6out ∧
    (w6out.controllerStatus = ControllerStatus.CONTROLLER_STOPPED ↔
      wRelEnv.setPosModeOk = true) := by
  refine ⟨rfl, by with_unfolding_all decide, ?_⟩
  exact (teardown_status_iff wRelEnv fState w6out rfl (by with_unfolding_all decide)).1

/-- Claim C7 counterexample: `threadRelease` has no status guard — invoked on
a floating-base thread whose status is already STOPPED and which has already
stabilized once (`stabilizeCalls = 1`), it enters `stabilizeRobot` again: the
stabilization-entry count of the resulting state is 2, refuting "does not
re-run the Stabilization Procedure". -/
theorem c7_restab_counterexample :
    c7State.controllerStatus = ControllerStatus.CONTROLLER_STOPPED ∧
    c7State.stabilizeCalls = 1 ∧
    (threadRelease wRelEnv c7State).map (fun t => t.stabilizeCalls) = some 2 := by
  exact ⟨rfl, rfl, by with_unfolding_all decide⟩

/-- Claim C7 (amended): calling `teardown()` with status already STOPPED does
not crash (given the task sequence exists and, on a floating base, the
stabilization set loads with the three expected task names and the wall clock
passes the timeout), but teardown is not guarded by the status: on a fixed
base stabilization is skipped as always, while on a floating base with a
successful stabilization-set load the Stabilization Procedure runs again
(entry count increments).  "At most once per thread lifetime" is ensured only
by the framework calling `teardown()` once, not by this code. -/
theorem c7_amended (env : ReleaseEnv) (s : ThreadState) (seq : TaskSeq)
    (hseq : s.taskSequence = some seq)
    (hstop : s.controllerStatus = ControllerStatus.CONTROLLER_STOPPED) :
    (s.fixedRoot = true → ∃ s', threadRelease env s = some s' ∧
        s'.stabilizeCalls = s.stabilizeCalls) ∧
    (s.fixedRoot = false → env.stabLoadOk = true →
      (findTarget "stabilization_fullPosture" env.stabManagers).isSome = true →
      (findTarget "stabilization_comTask" env.stabManagers).isSome = true →
      (findTarget "stabilization_torsoCartesianTask" env.stabManagers).isSome = true →
      ∀ j, j < env.fuel → STABILIZATION_TIMEOUT ≤ env.clock j - env.startTime →
        ∃ s', threadRelease env s = some s' ∧
          s'.stabilizeCalls = s.stabilizeCalls + 1) := by
  constructor
  · intro hfix
    have hA : afterStabPhase env { s with taskSequence := some (clearSequence seq) } =
        some { s with taskSequence := some (clearSequence seq) } :=
      afterStab_fixed hfix
    obtain ⟨s', hs'⟩ := posModePhase_total env
      { s with taskSequence := some (clearSequence seq) } rfl
    obtain ⟨P1, P2⟩ := posModePhase_spec hs'
    refine ⟨s', ?_, ?_⟩
    · unfold threadRelease
      rw [hseq, Option.some_bind, hA, Option.some_bind]
      exact hs'
    · by_cases hok : env.setPosModeOk = true
      · exact (P1 hok).2.2.2.1
      · have hfalse : env.setPosModeOk = false := by
          revert hok
          cases env.setPosModeOk <;> simp
        rw [P2 hfalse]
  · intro hfix hload h1 h2 h3 j hj hcl
    have h1' : (findTarget "stabilization_fullPosture"
        ((clearSequence seq).managers ++ env.stabManagers)).isSome = true := by
      show (findTarget _ ([] ++ env.stabManagers)).isSome = true
      rw [List.nil_append]
      exact h1
    have h2' : (findTarget "stabilization_comTask"
        ((clearSequence seq).managers ++ env.stabManagers)).isSome = true := by
      show (findTarget _ ([] ++ env.stabManagers)).isSome = true
      rw [List.nil_append]
      exact h2
    have h3' : (findTarget "stabilization_torsoCartesianTask"
        ((clearSequence seq).managers ++ env.stabManagers)).isSome = true := by
      show (findTarget _ ([] ++ env.stabManagers)).isSome = true
      rw [List.nil_append]
      exact h3
    obtain ⟨s2, hs2⟩ := afterStab_total_float
      { s with taskSequence := some (clearSequence seq) } rfl hfix hload h1' h2' h3' hj hcl
    have hA := afterStab_spec hs2 rfl
    have hcalls : s2.stabilizeCalls = s.stabilizeCalls + 1 := by
      have hc := hA.2.2.2.2.1
      rw [if_pos ⟨hfix, hload⟩] at hc
      exact hc
    obtain ⟨s', hs'⟩ := posModePhase_total env s2 hA.2.2.2.1
    obtain ⟨P1, P2⟩ := posModePhase_spec hs'
    refine ⟨s', ?_, ?_⟩
    · unfold threadRelease
      rw [hseq, Option.some_bind, hs2, Option.some_bind]
      exact hs'
    · by_cases hok : env.setPosModeOk = true
      · exact ((P1 hok).2.2.2.1).trans hcalls
      · have hfalse : env.setPosModeOk = false := by
          revert hok
          cases env.setPosModeOk <;> simp
        rw [P2 hfalse]
        exact hcalls

/-- Witness for `c7_amended` (floating-base branch): the concrete
already-STOPPED state tears down without fault and stabilization runs a
second time. -/
theorem c7_amended_witness :
    c7State.taskSequence = some emptyTaskSeq ∧
    c7State.controllerStatus = ControllerStatus.CONTROLLER_STOPPED ∧
    c7State.fixedRoot = false ∧ wRelEnv.stabLoadOk = true ∧
    (0 : Nat) < wRelEnv.fuel ∧
    STABILIZATION_TIMEOUT ≤ wRelEnv.clock 0 - wRelEnv.startTime ∧
    (∃ s', threadRelease wRelEnv c7State = some s' ∧
      s'.stabilizeCalls = c7State.stabilizeCalls + 1) := by
  refine ⟨rfl, rfl, rfl, rfl, by with_unfolding_all decide, by with_unfolding_all decide, ?_⟩
  exact (c7_amended wRelEnv c7State emptyTaskSeq rfl rfl).2 rfl rfl
    (by with_unfolding_all decide) (by with_unfolding_all decide)
    (by with_unfolding_all decide) 0 (by with_unfolding_all decide)
    (by with_unfolding_all decide)

/-- Claim C8: while the stabilization flag is true, `run()` leaves the task
sequence completely untouched (its `update` is not invoked and no task
changes), and across the whole Stabilization Procedure the only
task-sequence changes are the re-targetings of the three named stabilization
tasks: the update counter, the last update time and every other task's
target are unchanged. -/
theorem stabilizing_suppresses_updates :
    (∀ (env : RunEnv) (s s' : ThreadState) (d : TorqueDispatch), s.isStabilizing = true →
        run env s = some (s', d) → s'.taskSequence = s.taskSequence) ∧
    (∀ (env : ReleaseEnv) (s s' : ThreadState) (seq : TaskSeq),
        s.taskSequence = some seq → stabilizeRobot env s = some s' →
        ∃ seqC, s'.taskSequence = some seqC ∧ seqC.updateCount = seq.updateCount ∧
          seqC.lastUpdateTime = seq.lastUpdateTime ∧
          (∀ key, key ≠ "stabilization_fullPosture" → key ≠ "stabilization_comTask" →
            key ≠ "stabilization_torsoCartesianTask" →
            findTarget key seqC.managers = findTarget key seq.managers)) :=
  ⟨fun _ _ _ _ hst h => run_stab_seq hst h,
   fun _ _ _ _ hseq h => stabilizeRobot_seq_frame hseq h⟩

/-- Witness for `stabilizing_suppresses_updates`: a concrete step with the
stabilization flag set leaves the task sequence identical. -/
theorem stabilizing_suppresses_updates_witness :
    c8s.isStabilizing = true ∧
    run wRun0 c8s = some (c8s1, TorqueDispatch.allJoints [0]) ∧
    c8s1.taskSequence = c8s.taskSequence := by
  refine ⟨rfl, by with_unfolding_all decide, ?_⟩
  exact stabilizing_suppresses_updates.1 wRun0 c8s c8s1 (TorqueDispatch.allJoints [0]) rfl
    (by with_unfolding_all decide)

/-- Claim C9: handling an inbound command message leaves the thread state
unchanged — in particular START_CONTROLLER, STOP_CONTROLLER and
PAUSE_CONTROLLER cause no status transition; the reply is exactly the
concatenation of the per-tag contents (the status for a status query, the
config path and robot name for those queries, nothing for every other tag);
and the only status transitions in the lifecycle are to RUNNING at the end
of a successful `threadInit` and to STOPPED on a `threadRelease` whose
position-mode switch succeeds. -/
theorem command_handler_frame :
    (∀ (s : ThreadState) (input : List MsgTag),
        parseIncomingMessage s input = (s, input.flatMap (replyOf s))) ∧
    (∀ (env : InitEnv) (s : ThreadState) (b : Bool) (s' : ThreadState),
        threadInit env s = some (b, s') →
        s'.controllerStatus =
          (if b = true then ControllerStatus.CONTROLLER_RUNNING else s.controllerStatus)) ∧
    (∀ (env : RunEnv) (s s' : ThreadState) (d : TorqueDispatch),
        run env s = some (s', d) → s'.controllerStatus = s.controllerStatus) ∧
    (∀ (env : ReleaseEnv) (s s' : ThreadState), threadRelease env s = some s' →
        (env.setPosModeOk = true ∧
          s'.controllerStatus = ControllerStatus.CONTROLLER_STOPPED) ∨
        s'.controllerStatus = s.controllerStatus) := by
  refine ⟨?_, ?_, ?_, ?_⟩
  · intro s input
    unfold parseIncomingMessage
    rw [parseMsgLoop_spec, List.nil_append]
  · intro env s b s' h
    exact (threadInit_spec h).2.2.2.2.2.1
  · intro env s s' d h
    exact (run_some_spec h).1.status
  · intro env s s' h
    unfold threadRelease at h
    obtain ⟨seq, hseq, h⟩ := Option.bind_eq_some.mp h
    obtain ⟨s2, h2, h3⟩ := Option.bind_eq_some.mp h
    have hst2 : s2.controllerStatus = s.controllerStatus := (afterStab_spec h2 rfl).1
    obtain ⟨P1, P2⟩ := posModePhase_spec h3
    by_cases hok : env.setPosModeOk = true
    · exact Or.inl ⟨hok, (P1 hok).1⟩
    · have hfalse : env.setPosModeOk = false := by
        revert hok
        cases env.setPosModeOk <;> simp
      right
      rw [P2 hfalse]
      exact hst2

/-- Witness for `command_handler_frame`: a message containing the status
query, the three transition-free lifecycle tags and the robot-name query
leaves the state as-is and replies with exactly the two query answers; and a
concrete successful `threadInit` hits RUNNING. -/
theorem command_handler_frame_witness :
    parseIncomingMessage fState c9msgs = (fState, c9msgs.flatMap (replyOf fState)) ∧
    c9msgs.flatMap (replyOf fState) =
      [ReplyVal.statusVal ControllerStatus.CONTROLLER_RUNNING, ReplyVal.strVal "icub"] ∧
    threadInit wInit (mkThread wOpts 1 (-1) 1) = some (true, c2s1) ∧
    c2s1.controllerStatus =
      (if (true : Bool) = true then ControllerStatus.CONTROLLER_RUNNING
       else (mkThread wOpts 1 (-1) 1).controllerStatus) := by
  refine ⟨command_handler_frame.1 fState c9msgs, by with_unfolding_all decide,
    by with_unfolding_all decide, ?_⟩
  exact command_handler_frame.2.1 wInit (mkThread wOpts 1 (-1) 1) true c2s1
    (by with_unfolding_all decide)

/-- Claim C10: the stabilization flag is false at construction, unchanged by
`threadInit`, `run` and the command handler, set to true on entering the
Stabilization Procedure, and never reset to false by any operation
(`threadRelease` included); consequently once stabilization has started,
every later non-debug `run()` skips the task-sequence update for the
remainder of the thread's lifetime. -/
theorem stabilizing_flag_lifecycle :
    (∀ (opts : OcraControllerOptions) (dofs : Nat) (tmin tmax : Rat),
        (mkThread opts dofs tmin tmax).isStabilizing = false) ∧
    (∀ (env : InitEnv) (s : ThreadState) (b : Bool) (s' : ThreadState),
        threadInit env s = some (b, s') → s'.isStabilizing = s.isStabilizing) ∧
    (∀ (env : RunEnv) (s s' : ThreadState) (d : TorqueDispatch),
        run env s = some (s', d) → s'.isStabilizing = s.isStabilizing) ∧
    (∀ (s : ThreadState) (input : List MsgTag),
        (parseIncomingMessage s input).1.isStabilizing = s.isStabilizing) ∧
    (∀ (s sp : ThreadState), stabPrep s = some sp → sp.isStabilizing = true) ∧
    (∀ (env : ReleaseEnv) (s s' : ThreadState), stabilizeRobot env s = some s' →
        s'.isStabilizing = true) ∧
    (∀ (env : ReleaseEnv) (s s' : ThreadState), threadRelease env s = some s' →
        s.isStabilizing = true → s'.isStabilizing = true) ∧
    (∀ (env : RunEnv) (s s' : ThreadState) (d : TorqueDispatch), s.isStabilizing = true →
        s.ctrlOptions.runInDebugMode = false → run env s = some (s', d) →
        s'.taskSequence = s.taskSequence) := by
  refine ⟨fun _ _ _ _ => rfl, ?_, ?_, ?_, ?_, ?_, ?_, ?_⟩
  · intro env s b s' h
    exact (threadInit_spec h).2.2.1
  · intro env s s' d h
    exact (run_some_spec h).1.stab
  · intro s input
    unfold parseIncomingMessage
    rw [parseMsgLoop_spec]
  · intro s sp h
    exact (stabPrep_spec h).1
  · intro env s s' h
    exact (stabilizeRobot_spec h).1
  · intro env s s' h hst
    unfold threadRelease at h
    obtain ⟨seq, hseq, h⟩ := Option.bind_eq_some.mp h
    obtain ⟨s2, h2, h3⟩ := Option.bind_eq_some.mp h
    have hst2 : s2.isStabilizing = true := (afterStab_spec h2 rfl).2.2.2.2.2 hst
    obtain ⟨P1, P2⟩ := posModePhase_spec h3
    by_cases hok : env.setPosModeOk = true
    · rw [(P1 hok).2.2.2.2]
      exact hst2
    · have hfalse : env.setPosModeOk = false := by
        revert hok
        cases env.setPosModeOk <;> simp
      rw [P2 hfalse]
      exact hst2
  · intro env s s' d hst hdbg h
    exact run_stab_seq hst h

/-- Witness for `stabilizing_flag_lifecycle`: the constructed thread starts
with the flag false and a concrete `run()` preserves it. -/
theorem stabilizing_flag_lifecycle_witness :
    (mkThread wOpts 1 (-1) 1).isStabilizing = false ∧
    run wRun c2s1 = some (c2s1a, TorqueDispatch.allJoints [1]) ∧
    c2s1a.isStabilizing = c2s1.isStabilizing := by
  refine ⟨stabilizing_flag_lifecycle.1 wOpts 1 (-1) 1, by with_unfolding_all decide, ?_⟩
  exact stabilizing_flag_lifecycle.2.2.1 wRun c2s1 c2s1a (TorqueDispatch.allJoints [1])
    (by with_unfolding_all decide)

end OcraYarp
